import Mathlib

/-!
Verification of the `ctfd_notifier` CTFd plugin (files `__init__.py`,
`hooks.py`, `routes.py`, `utils.py`) against its natural-language
specification.

The plugin is shallowly embedded: CTFd's key/value config store, the OS
environment and `app.config` are association lists of strings; Python's
truthiness, `int()` conversion and `str.format` (for the plain
`\x7bname\x7d`-field subset actually used by the plugin's templates) are
modelled as executable Lean functions; operations that can raise in Python
(template formatting, the DB solve-count query, the HTTP POST) return
`Except` and every `try/except` of the source is an explicit `match`.
Event-hook wrappers return the original call's result paired with the list
of calls they make to `send_telegram_message`; `send_telegram_message`
itself returns the list of HTTP POSTs it attempts.  Totality of these Lean
functions models the source's guarantee that the wrappers never raise.
-/

namespace CtfdNotifier

/-- Curly brace characters, used by the model of Python `str.format`. -/
def lb : Char := Char.ofNat 123

/-- Closing curly brace character. -/
def rb : Char := Char.ofNat 125

/-- Lookup in an association list (first binding wins), the model of
`dict.get` / CTFd's config table / `os.environ`. -/
def alGet {α : Type} (m : List (String × α)) (k : String) : Option α :=
  match m with
  | [] => none
  | (k2, v) :: rest => if k2 = k then some v else alGet rest k

/-- Update an association list binding in place (append if absent), the
model of `set_config` and of `setattr` on a class's attribute dict. -/
def alSet {α : Type} (m : List (String × α)) (k : String) (v : α) :
    List (String × α) :=
  match m with
  | [] => [(k, v)]
  | (k2, v2) :: rest => if k2 = k then (k, v) :: rest else (k2, v2) :: alSet rest k v

/-- Remove a key from an association list; used only to state that an
unset configuration key behaves like an absent one. -/
def alErase {α : Type} (m : List (String × α)) (k : String) : List (String × α) :=
  match m with
  | [] => []
  | (k2, v2) :: rest => if k2 = k then alErase rest k else (k2, v2) :: alErase rest k

/-- CTFd's key/value configuration store: all values the admin form writes
are strings. -/
abbrev Config : Type := List (String × String)

/-- Model of CTFd's `get_config`: `None` for an unset key. -/
def get_config (cfg : Config) (k : String) : Option String := alGet cfg k

/-- Model of CTFd's `set_config`. -/
def set_config (cfg : Config) (k : String) (v : String) : Config := alSet cfg k v

/-- Python `x or d` for an optional string `x` and a string default `d`
(`None` and the empty string are falsy). -/
def pyOrS (x : Option String) (d : String) : String :=
  match x with
  | none => d
  | some s => if s = "" then d else s

/-- Python `a or b` when both operands are optional strings. -/
def pyOrO (a b : Option String) : Option String :=
  match a with
  | none => b
  | some s => if s = "" then b else some s

/-- Python `s.lower()` on the ASCII configuration values the plugin
compares, modelled character by character. -/
def pyLower (s : String) : String :=
  String.mk (s.toList.map Char.toLower)

/-- Python `s.strip()`: drop surrounding whitespace. -/
def pyStrip (s : String) : String :=
  String.mk
    (((s.toList.dropWhile Char.isWhitespace).reverse.dropWhile
        Char.isWhitespace).reverse)

/-- Python truthiness test used by the plugin:
`str(raw).lower() in ("1", "true", "yes", "on")`. -/
def truthy (s : String) : Bool :=
  pyLower s = "1" ∨ pyLower s = "true" ∨ pyLower s = "yes" ∨ pyLower s = "on"

/-- Digit-string value; `none` on an empty or non-digit string. -/
def parseDigits (cs : List Char) : Option Nat :=
  match cs with
  | [] => none
  | _ =>
    if cs.all (fun c => c.isDigit) then
      some (cs.foldl (fun a c => a * 10 + (c.toNat - 48)) 0)
    else none

/-- Model of Python `int(s)` on a string: surrounding whitespace, an
optional sign, then decimal digits; `none` when `int` would raise. -/
def pyIntOpt (s : String) : Option Int :=
  match (pyStrip s).toList with
  | [] => none
  | c :: rest =>
    if c = '-' then (parseDigits rest).map (fun n => -(n : Int))
    else if c = '+' then (parseDigits rest).map (fun n => (n : Int))
    else (parseDigits (c :: rest)).map (fun n => (n : Int))

/-- Python `s.rstrip("/")`: drop trailing slash characters. -/
def rstripSlash (s : String) : String :=
  String.mk (s.toList.reverse.dropWhile (fun c => c = '/')).reverse

/-- Exceptions raised by the model of `str.format`. -/
inductive FmtErr : Type where
  | keyError (k : String)
  | malformed
deriving DecidableEq, Repr

/-- Truth of `Except.ok`. -/
def exceptOk {ε α : Type} : Except ε α → Bool
  | Except.ok _ => true
  | Except.error _ => false

/-- Worker for the model of Python `str.format` with keyword arguments.
The first list argument is `none` in literal mode and `some acc` (the
reversed characters read so far) while scanning a replacement-field name.
Double braces escape; a lone closing brace, an unterminated field, or a
field whose name is not among the keyword arguments raises, exactly as
CPython does on the plain named-field subset the plugin's templates use. -/
def pyFmtAux (vals : List (String × String)) :
    Option (List Char) → List Char → Except FmtErr String
  | none, [] => Except.ok ""
  | some _, [] => Except.error FmtErr.malformed
  | none, c :: rest =>
    if c = lb then
      match rest with
      | [] => Except.error FmtErr.malformed
      | c2 :: rest2 =>
        if c2 = lb then
          Except.map (fun s => String.mk [lb] ++ s) (pyFmtAux vals none rest2)
        else pyFmtAux vals (some []) (c2 :: rest2)
    else if c = rb then
      match rest with
      | [] => Except.error FmtErr.malformed
      | c2 :: rest2 =>
        if c2 = rb then
          Except.map (fun s => String.mk [rb] ++ s) (pyFmtAux vals none rest2)
        else Except.error FmtErr.malformed
    else Except.map (fun s => String.mk [c] ++ s) (pyFmtAux vals none rest)
  | some acc, c :: rest =>
    if c = rb then
      match alGet vals (String.mk acc.reverse) with
      | none => Except.error (FmtErr.keyError (String.mk acc.reverse))
      | some v => Except.map (fun s => v ++ s) (pyFmtAux vals none rest)
    else pyFmtAux vals (some (c :: acc)) rest

/-- Model of Python `template.format(k1=v1, ...)` for the plugin's
templates. -/
def pyFormat (tmpl : String) (vals : List (String × String)) :
    Except FmtErr String :=
  pyFmtAux vals none tmpl.toList

/-!
Model of `utils.py`: the default challenge-update template, the resolved
Telegram configuration and `send_telegram_message`.
-/

/-- The module-level `DEFAULT_MESSAGE_TEMPLATE` constant of `utils.py`. -/
def DEFAULT_MESSAGE_TEMPLATE : String :=
  "*New challenge created*\nName: `{name}`\nCategory: `{category}`\nValue: `{value}`"

/-- The ambient application state `send_telegram_message` reads: the CTFd
config table, `os.environ`, `app.config` (string-valued entries), and
whether the outgoing HTTP POST would succeed. -/
structure AppEnv : Type where
  cfg : Config
  osenv : List (String × String)
  appCfg : List (String × String)
  httpOk : Bool
deriving DecidableEq, Repr

/-- The `TelegramConfig` dataclass of `utils.py`. -/
structure TelegramConfig : Type where
  enabled : Bool
  bot_token : Option String
  chat_id : Option String
deriving DecidableEq, Repr

/-- The raw enabled value before truthiness conversion in
`TelegramConfig.from_app`: the CTFd config key wins; otherwise the
environment variable; otherwise `app.config.get(..., False)`, whose
`False` default stringifies to `"False"`. -/
def enabledRaw (env : AppEnv) : String :=
  match get_config env.cfg "ctfd_notifier_telegram_enabled" with
  | some v => v
  | none =>
    match alGet env.osenv "CTFD_NOTIFIER_TELEGRAM_ENABLED" with
    | some v => v
    | none =>
      match alGet env.appCfg "CTFD_NOTIFIER_TELEGRAM_ENABLED" with
      | some v => v
      | none => "False"

/-- The `TelegramConfig.from_app` classmethod of `utils.py`: resolve the
enabled flag, bot token and chat id from config table, environment and
`app.config`, in that priority order (Python `or` chains, so empty strings
fall through). -/
def TelegramConfig.from_app (env : AppEnv) : TelegramConfig :=
  { enabled := truthy (enabledRaw env)
    bot_token :=
      pyOrO (get_config env.cfg "ctfd_notifier_telegram_bot_token")
        (pyOrO (alGet env.osenv "CTFD_NOTIFIER_TELEGRAM_BOT_TOKEN")
          (alGet env.appCfg "CTFD_NOTIFIER_TELEGRAM_BOT_TOKEN"))
    chat_id :=
      pyOrO (get_config env.cfg "ctfd_notifier_telegram_chat_id")
        (pyOrO (alGet env.osenv "CTFD_NOTIFIER_TELEGRAM_CHAT_ID")
          (alGet env.appCfg "CTFD_NOTIFIER_TELEGRAM_CHAT_ID")) }

/-- The `is_valid` method: enabled and both credentials non-empty
(Python `bool()` on an optional string). -/
def TelegramConfig.is_valid (c : TelegramConfig) : Bool :=
  c.enabled && (match c.bot_token with | none => false | some s => !(s == ""))
    && (match c.chat_id with | none => false | some s => !(s == ""))

/-- The JSON body `send_telegram_message` builds for the Telegram
`sendMessage` endpoint. -/
structure Payload : Type where
  chat_id : String
  text : String
  parse_mode : String
  disable_web_page_preview : Bool
  message_thread_id : Option Int
deriving DecidableEq, Repr

/-- One attempted HTTP POST. -/
structure HttpPost : Type where
  url : String
  payload : Payload
deriving DecidableEq, Repr

/-- Outcome of `requests.post`: raises (network error, timeout) when the
environment says HTTP is down; the wrapper's `try/except` swallows it. -/
def requestsPost (env : AppEnv) (p : HttpPost) : Except Unit HttpPost :=
  if env.httpOk then Except.ok p else Except.error ()

/-- The optional `message_thread_id` computed by `send_telegram_message`
when a `thread_config_key` is supplied: `int(get_config(key))` when the
value is set, non-empty and parses, otherwise `None`. -/
def threadIdOf (cfg : Config) (threadKey : Option String) : Option Int :=
  match threadKey with
  | none => none
  | some k =>
    match get_config cfg k with
    | none => none
    | some s => if s = "" then none else pyIntOpt s

/-- The `send_telegram_message` function of `utils.py`, returning the list
of HTTP POSTs it attempts.  An invalid or disabled configuration returns
without any request; otherwise exactly one POST is attempted, and a
failure of the POST itself is caught (logged) so the function still
returns normally. -/
def send_telegram_message (env : AppEnv) (text : String)
    (threadKey : Option String) : List HttpPost :=
  let cfg := TelegramConfig.from_app env
  if ¬ cfg.is_valid then []
  else
    let post : HttpPost :=
      { url := "https://api.telegram.org/bot"
            ++ (match cfg.bot_token with | some t => t | none => "")
            ++ "/sendMessage"
        payload :=
          { chat_id := match cfg.chat_id with | some c => c | none => ""
            text := text
            parse_mode := "Markdown"
            disable_web_page_preview := true
            message_thread_id := threadIdOf env.cfg threadKey } }
    match requestsPost env post with
    | Except.ok _ => [post]
    | Except.error _ => [post]

/-!
Model of the event-hook wrappers of `hooks.py` and of the create wrapper of
`__init__.py`.  A wrapper returns the original call's result together with
the list of `send_telegram_message` calls it makes (text plus the
`thread_config_key` argument).
-/

/-- One call to `send_telegram_message` made by a wrapper. -/
structure SendCall : Type where
  text : String
  threadKey : Option String
deriving DecidableEq, Repr

/-- The solving user as the solve wrapper sees it: `getattr(user, "name",
"Unknown")`. -/
structure PyUser : Type where
  name : Option String
deriving DecidableEq, Repr

/-- A challenge object as the wrappers see it.  The attributes read with
`getattr(..., default)` are optional; `id` is a database column and always
present (line 91 of `hooks.py` reads `challenge.id` directly). -/
structure PyChallenge : Type where
  name : Option String
  category : Option String
  value : Option Int
  state : Option String
  id : Int
deriving DecidableEq, Repr

/-- The ambient state a hook wrapper reads: the config table, the
application's `URL_ROOT`, and the outcome of the solve-count DB query run
after the original solve (the `or 0` of line 38 is already folded into the
count; `Except.error` models the query raising). -/
structure HookEnv : Type where
  cfg : Config
  url_root : String
  solveCountE : Except Unit Nat
deriving Repr

/-- The built-in first-blood solve template (line 61 and its fallback copy
at lines 67 and 69 of `hooks.py`). -/
def FIRST_BLOOD_DEFAULT : String := "🩸 First Blood! ⚡️\n{user} solved {challenge}"

/-- The built-in regular solve template (lines 72 and 82 of `hooks.py`). -/
def SOLVE_DEFAULT : String := "{user} solved {challenge} ({num})"

/-- Lines 43-47 of `hooks.py`: `int(get_config("ctfd_notifier_solve_limit"))`
when set and non-empty, `None` otherwise or when `int` raises. -/
def solveLimit (cfg : Config) : Option Int :=
  match get_config cfg "ctfd_notifier_solve_limit" with
  | none => none
  | some s => if s = "" then none else pyIntOpt s

/-- Lines 53-54 of `hooks.py`: truthiness of
`get_config("ctfd_notifier_solves_enabled") or "off"`. -/
def solvesEnabled (cfg : Config) : Bool :=
  truthy (pyOrS (get_config cfg "ctfd_notifier_solves_enabled") "off")

/-- The first-blood template in effect: the config value or the built-in
default (line 60 of `hooks.py`). -/
def fbTemplate (cfg : Config) : String :=
  pyOrS (get_config cfg "ctfd_notifier_solve_first_blood_template") FIRST_BLOOD_DEFAULT

/-- The regular solve template in effect (line 72 of `hooks.py`). -/
def solveTemplate (cfg : Config) : String :=
  pyOrS (get_config cfg "ctfd_notifier_solve_template") SOLVE_DEFAULT

/-- The challenge-update template in effect (lines 138-141 of `hooks.py`). -/
def msgTemplate (cfg : Config) : String :=
  pyOrS (get_config cfg "ctfd_notifier_message_template") DEFAULT_MESSAGE_TEMPLATE

/-- The test of lines 49-50 of `hooks.py`: a solve limit is configured and
the post-solve count exceeds it. -/
def limitHit (cfg : Config) (solve_count : Nat) : Bool :=
  match solveLimit cfg with
  | some m => (solve_count : Int) > m
  | none => false

/-- The keyword arguments of the first-blood `format` call (line 64 of
`hooks.py`): user and challenge only, no `num`. -/
def solveVals2 (user_name name : String) : List (String × String) :=
  [("user", user_name), ("challenge", name)]

/-- The keyword arguments of the regular solve `format` call (lines 75-79
of `hooks.py`): user, challenge and the stringified count. -/
def solveVals3 (user_name name : String) (solve_count : Nat) : List (String × String) :=
  [("user", user_name), ("challenge", name), ("num", toString solve_count)]

/-- The keyword arguments of the update `format` calls (lines 145-150 and
158-163 of `hooks.py`): `name` and `challenge` both bound to the
challenge's name, plus category and the stringified value (empty when the
value is `None`). -/
def updateVals (ch : PyChallenge) : List (String × String) :=
  [("name", ch.name.getD "Unknown"), ("challenge", ch.name.getD "Unknown"),
    ("category", ch.category.getD "Uncategorized"),
    ("value", match ch.value with | some v => toString v | none => "")]

/-- The challenge link appended to every solve message when `URL_ROOT` is
configured (lines 89-91 of `hooks.py`). -/
def challengeLink (url_root : String) (name : String) (id : Int) : String :=
  let u := rstripSlash url_root
  if u = "" then "" else "\n\nChallenge: " ++ u ++ "/challenges#" ++ name ++ "-" ++ toString id

/-- The admin link appended to every update message when `URL_ROOT` is
configured (lines 165-167 of `hooks.py`). -/
def adminLink (url_root : String) : String :=
  let u := rstripSlash url_root
  if u = "" then "" else "\n\nAdmin: " ++ u ++ "/admin/challenges"

/-- The body of the `try` block of `solve_wrapper` (lines 28-93 of
`hooks.py`): compute the post-solve count, apply the solve-notification
limit, the enabled flag, pick and render the template (falling back to the
built-in default when the configured one raises; the duplicated fallback
lines 69-70 recompute the same text), append the challenge link and call
`send_telegram_message`.  `Except.ok calls` lists the sends; `Except.error`
is an exception reaching the outer `except` (a failed DB query, or a
default template that itself fails to render). -/
def solve_body (env : HookEnv) (user : PyUser) (challenge : PyChallenge) :
    Except Unit (List SendCall) :=
  let name := challenge.name.getD "Unknown"
  match env.solveCountE with
  | Except.error _ => Except.error ()
  | Except.ok solve_count =>
    let user_name := user.name.getD "Unknown"
    if limitHit env.cfg solve_count then Except.ok []
    else if ¬ solvesEnabled env.cfg then Except.ok []
    else
      let textE : Except FmtErr String :=
        if solve_count = 1 then
          match pyFormat (fbTemplate env.cfg) (solveVals2 user_name name) with
          | Except.ok t => Except.ok t
          | Except.error _ =>
            pyFormat FIRST_BLOOD_DEFAULT (solveVals2 user_name name)
        else
          match pyFormat (solveTemplate env.cfg)
              (solveVals3 user_name name solve_count) with
          | Except.ok t => Except.ok t
          | Except.error _ =>
            pyFormat SOLVE_DEFAULT (solveVals3 user_name name solve_count)
      match textE with
      | Except.error _ => Except.error ()
      | Except.ok t =>
        Except.ok
          [{ text := t ++ challengeLink env.url_root name challenge.id
             threadKey := some "ctfd_notifier_solve_thread_id" }]

/-- The `solve_wrapper` closure installed by `wrap_solve` (lines 25-98 of
`hooks.py`): run the original solve (its return value is the `result`
argument), then attempt the notification, swallowing every exception. -/
def solve_wrapper {α : Type} (env : HookEnv) (user : PyUser)
    (challenge : PyChallenge) (result : α) : α × List SendCall :=
  match solve_body env user challenge with
  | Except.ok calls => (result, calls)
  | Except.error _ => (result, [])

/-- The body of the inner `try` of the update wrapper (lines 133-169 of
`hooks.py`): render the update template with `name`, `challenge`,
`category` and `value`, falling back to `DEFAULT_MESSAGE_TEMPLATE` when it
raises, append the admin link and call `send_telegram_message`. -/
def update_notify (env : HookEnv) (challenge : PyChallenge) :
    Except FmtErr (List SendCall) :=
  let vals := updateVals challenge
  let textE : Except FmtErr String :=
    match pyFormat (msgTemplate env.cfg) vals with
    | Except.ok t => Except.ok t
    | Except.error _ => pyFormat DEFAULT_MESSAGE_TEMPLATE vals
  match textE with
  | Except.error e => Except.error e
  | Except.ok t =>
    Except.ok
      [{ text := t ++ adminLink env.url_root
         threadKey := some "ctfd_notifier_challenge_thread_id" }]

/-- The `wrapper` closure installed by `_wrap_challenge_update` (lines
127-179 of `hooks.py`): run the original update (its return value is the
`result` argument; `oldState` is the challenge state read before it ran and
`challenge` carries the state after it ran), and when the challenge just
became visible attempt the notification, swallowing every exception. -/
def update_wrapper {α : Type} (env : HookEnv) (oldState : Option String)
    (challenge : PyChallenge) (result : α) : α × List SendCall :=
  if (¬ oldState = some "visible") ∧ challenge.state = some "visible" then
    match update_notify env challenge with
    | Except.ok calls => (result, calls)
    | Except.error _ => (result, [])
  else (result, [])

/-- The default notification text of the create wrapper (lines 166-182 of
`__init__.py`, the `message_builder is None` path taken when `load` wraps
the standard challenge class). -/
def createText (env : HookEnv) (challenge : PyChallenge) : String :=
  let name := challenge.name.getD "Unknown"
  let category := challenge.category.getD "Uncategorized"
  let u := rstripSlash env.url_root
  let base := "*New challenge created*\nName: `" ++ name ++ "`\nCategory: `"
    ++ category ++ "`\n"
  let withVal :=
    match challenge.value with
    | some v => base ++ "Value: `" ++ toString v ++ "`\n"
    | none => base
  if u = "" then withVal else withVal ++ "\nAdmin: " ++ u ++ "/admin/challenges"

/-- The `wrapper` closure of `notify_on_challenge_create` with the default
message builder (lines 153-194 of `__init__.py`): the original create
returned `challenge`; the wrapper builds the default text, sends it through
`__init__.py`'s `send_telegram_message` (which takes no thread key) and
returns the challenge unchanged. -/
def create_wrapper (env : HookEnv) (challenge : PyChallenge) :
    PyChallenge × List SendCall :=
  (challenge, [{ text := createText env challenge, threadKey := none }])

/-!
Model of the class registry and of the monkey-patching done at plugin load
(`CHALLENGE_CLASSES`, `_wrap_standard_challenge_create` and `load` of
`__init__.py`).  Python objects stored as class attributes are represented
symbolically: plain functions carry their `__name__` and `__doc__`,
`classmethod` objects wrap an inner object, and `createWrapper inner` is
the wrapper function built by `notify_on_challenge_create()(inner)`, whose
`__name__`, `__doc__` and `__wrapped__` were copied from `inner` at wrap
time (lines 197-199 of `__init__.py`). -/

/-- A Python object stored as a class attribute. -/
inductive PyObj : Type where
  | strv (s : String)
  | base (name : String) (doc : Option String)
  | createWrapper (inner : PyObj)
  | clsmethod (inner : PyObj)
deriving DecidableEq, Repr

/-- Model of `getattr(o, "__func__", o)` (line 230 of `__init__.py`):
`classmethod` objects expose the underlying function, anything else is
returned unchanged. -/
def dunderFunc (o : PyObj) : PyObj :=
  match o with
  | PyObj.clsmethod i => i
  | x => x

/-- Model of `getattr(o, "__name__", d)`: plain functions carry their name
and the create wrapper carries the name copied from the function it wraps
(with `"wrapped_create"` as the copy-time default, line 197). -/
def objNameD (o : PyObj) (d : String) : String :=
  match o with
  | PyObj.base n _ => n
  | PyObj.createWrapper i => objNameD i "wrapped_create"
  | _ => d

/-- Model of `getattr(o, "__doc__", None)` for the objects of this model
(line 198 of `__init__.py`). -/
def objDocO (o : PyObj) : Option String :=
  match o with
  | PyObj.base _ d => d
  | PyObj.createWrapper i => objDocO i
  | _ => none

/-- Model of `getattr(o, "__wrapped__", None)`: only the create wrapper
sets it (line 199 of `__init__.py`). -/
def objWrapped (o : PyObj) : Option PyObj :=
  match o with
  | PyObj.createWrapper i => some i
  | _ => none

/-- Whether an attribute value is (or wraps via `classmethod`) a notifier
create wrapper. -/
def isNotifierWrapped (o : PyObj) : Bool :=
  match o with
  | PyObj.createWrapper _ => true
  | PyObj.clsmethod i => isNotifierWrapped i
  | _ => false

/-- A class's attribute dictionary. -/
abbrev AttrMap : Type := List (String × PyObj)

/-- The `CHALLENGE_CLASSES` registry: challenge type id to class. -/
abbrev Registry : Type := List (String × AttrMap)

/-- The `_wrap_standard_challenge_create` function of `__init__.py` (lines
205-249): look up the `standard` class, read its `create` attribute,
extract the underlying function, wrap it with
`notify_on_challenge_create()` and rebind `create` to the resulting
`classmethod`; if the class or the method is missing, warn and change
nothing. -/
def wrap_standard_challenge_create (reg : Registry) : Registry :=
  match alGet reg "standard" with
  | none => reg
  | some cls =>
    match alGet cls "create" with
    | none => reg
    | some original_create =>
      let func := dunderFunc original_create
      let wrapped := PyObj.clsmethod (PyObj.createWrapper func)
      alSet reg "standard" (alSet cls "create" wrapped)

/-- The `load` plugin entrypoint of `__init__.py` (lines 311-324), as it
acts on the challenge-class registry: it wraps the standard class's
`create` and registers the admin blueprint (which touches no class), and
calls nothing from `hooks.py`. -/
def load (reg : Registry) : Registry :=
  wrap_standard_challenge_create reg

/-!
Model of the admin configuration POST handler (`config_view` in
`routes.py` lines 26-62 and its sibling in `__init__.py` lines 269-287).
-/

/-- An incoming POST request: the form fields and the session nonce. -/
structure FormReq : Type where
  form : List (String × String)
  sessionNonce : Option String
deriving DecidableEq, Repr

/-- The handler's response (every POST path redirects). -/
inductive Resp : Type where
  | redirect (endpoint : String)
deriving DecidableEq, Repr

/-- Model of `request.form.get(k, d)`. -/
def formGet (f : List (String × String)) (k d : String) : String :=
  (alGet f k).getD d

/-- The POST branch of `config_view` in `routes.py`: check the CSRF nonce
(redirecting to the settings page without writing anything on mismatch),
otherwise store the eleven configuration keys and redirect back to the
form. -/
def routes_config_view_post (cfg : Config) (req : FormReq) : Config × Resp :=
  let form_nonce := formGet req.form "nonce" ""
  let session_nonce := req.sessionNonce.getD ""
  if form_nonce = "" ∨ ¬ form_nonce = session_nonce then
    (cfg, Resp.redirect "admin.view_settings")
  else
    let enabled := formGet req.form "enabled" "off"
    let enable_challenge := formGet req.form "enable_challenge" "off"
    let enable_solves := formGet req.form "enable_solves" "off"
    let bot_token := pyStrip (formGet req.form "bot_token" "")
    let chat_id := pyStrip (formGet req.form "chat_id" "")
    let message_template := pyStrip (formGet req.form "message_template" "")
    let solve_template := pyStrip (formGet req.form "solve_template" "")
    let first_blood_template := pyStrip (formGet req.form "first_blood_template" "")
    let solve_limit := pyStrip (formGet req.form "solve_limit" "")
    let challenge_thread_id := pyStrip (formGet req.form "challenge_thread_id" "")
    let solve_thread_id := pyStrip (formGet req.form "solve_thread_id" "")
    let c1 := set_config cfg "ctfd_notifier_telegram_enabled" enabled
    let c2 := set_config c1 "ctfd_notifier_challenge_enabled" enable_challenge
    let c3 := set_config c2 "ctfd_notifier_solves_enabled" enable_solves
    let c4 := set_config c3 "ctfd_notifier_telegram_bot_token" bot_token
    let c5 := set_config c4 "ctfd_notifier_telegram_chat_id" chat_id
    let c6 := set_config c5 "ctfd_notifier_message_template"
      (if message_template = "" then DEFAULT_MESSAGE_TEMPLATE else message_template)
    let c7 := set_config c6 "ctfd_notifier_solve_template" solve_template
    let c8 := set_config c7 "ctfd_notifier_solve_first_blood_template" first_blood_template
    let c9 := set_config c8 "ctfd_notifier_solve_limit" solve_limit
    let c10 := set_config c9 "ctfd_notifier_challenge_thread_id" challenge_thread_id
    let c11 := set_config c10 "ctfd_notifier_solve_thread_id" solve_thread_id
    (c11, Resp.redirect "ctfd_notifier_admin.config_view")

/-- The POST branch of the `config_view` defined inside
`_register_admin_blueprint` in `__init__.py`: same nonce check, but only
the three Telegram credential keys are stored. -/
def init_config_view_post (cfg : Config) (req : FormReq) : Config × Resp :=
  let form_nonce := formGet req.form "nonce" ""
  let session_nonce := req.sessionNonce.getD ""
  if form_nonce = "" ∨ ¬ form_nonce = session_nonce then
    (cfg, Resp.redirect "admin.view_settings")
  else
    let enabled := formGet req.form "enabled" "off"
    let bot_token := pyStrip (formGet req.form "bot_token" "")
    let chat_id := pyStrip (formGet req.form "chat_id" "")
    let c1 := set_config cfg "ctfd_notifier_telegram_enabled" enabled
    let c2 := set_config c1 "ctfd_notifier_telegram_bot_token" bot_token
    let c3 := set_config c2 "ctfd_notifier_telegram_chat_id" chat_id
    (c3, Resp.redirect "ctfd_notifier_admin.config_view")

/-- Attribute of a registered challenge class, as the host platform would
read it after plugin load. -/
def classAttr (reg : Registry) (cid attr : String) : Option PyObj :=
  match alGet reg cid with
  | none => none
  | some cls => alGet cls attr

/-!
Concrete fixtures used by witnesses and counterexamples.
-/

/-- A configuration with valid Telegram credentials, notifications on and
no custom templates. -/
def cfgValid : Config :=
  [("ctfd_notifier_telegram_enabled", "true"),
    ("ctfd_notifier_telegram_bot_token", "123:abc"),
    ("ctfd_notifier_telegram_chat_id", "-100500"),
    ("ctfd_notifier_solves_enabled", "on")]

/-- A full application environment around `cfgValid`. -/
def envValid : AppEnv :=
  { cfg := cfgValid, osenv := [], appCfg := [], httpOk := true }

/-- A hook environment around `cfgValid` with no `URL_ROOT` and a solve
count of 2. -/
def henvValid : HookEnv :=
  { cfg := cfgValid, url_root := "", solveCountE := Except.ok 2 }

/-- A solving user. -/
def aliceUser : PyUser := { name := some "alice" }

/-- A visible challenge. -/
def chVisible : PyChallenge :=
  { name := some "pwn1", category := some "pwn", value := some 100,
    state := some "visible", id := 7 }

/-- The standard challenge class: classmethods `create` and `solve` plus
unrelated attributes. -/
def stdClass : AttrMap :=
  [("create", PyObj.clsmethod (PyObj.base "create" (some "Create a challenge"))),
    ("solve", PyObj.clsmethod (PyObj.base "solve" (some "Solve a challenge"))),
    ("update", PyObj.clsmethod (PyObj.base "update" none)),
    ("templates", PyObj.strv "standard-templates"),
    ("scripts", PyObj.strv "standard-scripts")]

/-- A challenge-class registry holding only the standard class. -/
def reg0 : Registry := [("standard", stdClass)]

/-- A POST request carrying a stale nonce. -/
def badReq : FormReq :=
  { form := [("nonce", "zzz"), ("bot_token", "secret")],
    sessionNonce := some "good" }

/-- A configuration whose user-supplied templates all raise `KeyError` on
an unknown field. -/
def cfgBadTemplates : Config :=
  [("ctfd_notifier_telegram_enabled", "true"),
    ("ctfd_notifier_solves_enabled", "on"),
    ("ctfd_notifier_message_template", "{oops}"),
    ("ctfd_notifier_solve_template", "{oops}"),
    ("ctfd_notifier_solve_first_blood_template", "{oops}")]

/-- A hook environment around the malformed templates, solve count 2. -/
def henvBad : HookEnv :=
  { cfg := cfgBadTemplates, url_root := "", solveCountE := Except.ok 2 }

/-- A hook environment around `cfgValid` with solve count 1 (first
blood). -/
def henvFB : HookEnv :=
  { cfg := cfgValid, url_root := "", solveCountE := Except.ok 1 }

/-- A configuration with solves enabled and a solve-notification limit of
1. -/
def cfgLimited : Config :=
  [("ctfd_notifier_telegram_enabled", "true"),
    ("ctfd_notifier_solves_enabled", "on"),
    ("ctfd_notifier_solve_limit", "1")]

/-- A hook environment around `cfgLimited` with solve count 2 (over the
limit). -/
def henvLimited : HookEnv :=
  { cfg := cfgLimited, url_root := "", solveCountE := Except.ok 2 }

/-!
Sanity checks of the Python-primitive models against CPython behaviour.
-/

example : pyFormat "{user} solved {challenge} ({num})"
    [("user", "alice"), ("challenge", "pwn1"), ("num", "3")] =
    Except.ok "alice solved pwn1 (3)" := by rfl

example : pyFormat "{usr} solved" [("user", "alice")] =
    Except.error (FmtErr.keyError "usr") := by rfl

example : pyFormat "oops \x7buser" [("user", "alice")] =
    Except.error FmtErr.malformed := by rfl

example : pyIntOpt " -42 " = some (-42) := by rfl

example : pyIntOpt "3a" = none := by rfl

example : truthy "True" = true ∧ truthy "off" = false := by decide

/-!
Support lemmas.
-/

theorem alGet_alSet_self {α : Type} (m : List (String × α)) (k : String) (v : α) :
    alGet (alSet m k v) k = some v := by
  induction m with
  | nil => simp [alGet, alSet]
  | cons p rest ih =>
    obtain ⟨k2, v2⟩ := p
    by_cases h : k2 = k
    · simp [alSet, alGet, h]
    · simp [alSet, alGet, h, ih]

theorem alGet_alSet_ne {α : Type} (m : List (String × α)) (k k' : String) (v : α)
    (h : ¬ k' = k) : alGet (alSet m k v) k' = alGet m k' := by
  have hkk : ¬ k = k' := fun hh => h hh.symm
  induction m with
  | nil => simp [alGet, alSet, hkk]
  | cons p rest ih =>
    obtain ⟨k2, v2⟩ := p
    by_cases h2 : k2 = k
    · subst h2
      simp [alSet, alGet, hkk]
    · simp [alSet, alGet, h2, ih]

theorem alGet_alErase_self {α : Type} (m : List (String × α)) (k : String) :
    alGet (alErase m k) k = none := by
  induction m with
  | nil => rfl
  | cons p rest ih =>
    obtain ⟨k2, v2⟩ := p
    by_cases h : k2 = k
    · simpa [alErase, h, alGet] using ih
    · simpa [alErase, h, alGet] using ih

theorem alGet_alErase_ne {α : Type} (m : List (String × α)) (k k' : String)
    (h : ¬ k' = k) : alGet (alErase m k) k' = alGet m k' := by
  have hkk : ¬ k = k' := fun hh => h hh.symm
  induction m with
  | nil => rfl
  | cons p rest ih =>
    obtain ⟨k2, v2⟩ := p
    by_cases h2 : k2 = k
    · subst h2
      simpa [alErase, alGet, hkk] using ih
    · simp [alErase, alGet, h2, ih]

theorem exceptOk_map {ε α β : Type} (f : α → β) (e : Except ε α) :
    exceptOk (Except.map f e) = exceptOk e := by
  cases e <;> rfl

/-- Whether `pyFmtAux` succeeds depends on the keyword arguments only
through which names are bound: enlarging the bound-name set preserves
success. -/
theorem pyFmtAux_isOk_mono (v1 v2 : List (String × String))
    (hdom : ∀ k, (alGet v1 k).isSome = true → (alGet v2 k).isSome = true) :
    ∀ (n : Nat) (cs : List Char), cs.length ≤ n → ∀ (m : Option (List Char)),
      exceptOk (pyFmtAux v1 m cs) = true → exceptOk (pyFmtAux v2 m cs) = true := by
  intro n
  induction n with
  | zero =>
    intro cs hlen m h
    have hnil : cs = [] := List.length_eq_zero.mp (Nat.le_zero.mp hlen)
    subst hnil
    cases m with
    | none => simpa [pyFmtAux] using h
    | some acc => simp [pyFmtAux, exceptOk] at h
  | succ n ih =>
    intro cs hlen m h
    cases cs with
    | nil =>
      cases m with
      | none => simpa [pyFmtAux] using h
      | some acc => simp [pyFmtAux, exceptOk] at h
    | cons c rest =>
      have hrest : rest.length ≤ n := by
        have := hlen
        simp only [List.length_cons] at this
        omega
      cases m with
      | some acc =>
        by_cases hc : c = rb
        · subst hc
          simp only [pyFmtAux] at h ⊢
          simp at h ⊢
          cases h1 : alGet v1 (String.mk acc.reverse) with
          | none => simp [h1, exceptOk] at h
          | some v =>
            have hs : (alGet v2 (String.mk acc.reverse)).isSome = true :=
              hdom _ (by simp [h1])
            cases h2 : alGet v2 (String.mk acc.reverse) with
            | none => simp [h2] at hs
            | some w =>
              simp only [h1, exceptOk_map] at h
              simp only [h2, exceptOk_map]
              exact ih rest hrest none h
        · simp only [pyFmtAux] at h ⊢
          simp [hc] at h ⊢
          exact ih rest hrest (some (c :: acc)) h
      | none =>
        by_cases hc : c = lb
        · subst hc
          cases rest with
          | nil => simp [pyFmtAux, exceptOk] at h
          | cons c2 rest2 =>
            have hrest2 : rest2.length ≤ n := by
              simp only [List.length_cons] at hrest
              omega
            by_cases hc2 : c2 = lb
            · subst hc2
              simp only [pyFmtAux] at h ⊢
              simp [exceptOk_map] at h ⊢
              exact ih rest2 hrest2 none h
            · simp only [pyFmtAux] at h ⊢
              simp [hc2] at h ⊢
              exact ih (c2 :: rest2) hrest (some []) h
        · by_cases hc' : c = rb
          · subst hc'
            have hne : ¬ rb = lb := by decide
            cases rest with
            | nil => simp [pyFmtAux, hne, exceptOk] at h
            | cons c2 rest2 =>
              have hrest2 : rest2.length ≤ n := by
                simp only [List.length_cons] at hrest
                omega
              by_cases hc2 : c2 = rb
              · subst hc2
                simp only [pyFmtAux] at h ⊢
                simp [hne, exceptOk_map] at h ⊢
                exact ih rest2 hrest2 none h
              · simp only [pyFmtAux] at h
                simp [hne, hc2, exceptOk] at h
          · cases rest with
            | nil => simp [pyFmtAux, hc, hc', exceptOk, Except.map]
            | cons c2 rest2 =>
              simp [pyFmtAux, hc, hc', exceptOk_map] at h ⊢
              exact ih (c2 :: rest2) hrest none h

/-- Success monotonicity lifted to `pyFormat`. -/
theorem pyFormat_isOk_mono (v1 v2 : List (String × String)) (tmpl : String)
    (hdom : ∀ k, (alGet v1 k).isSome = true → (alGet v2 k).isSome = true)
    (h : exceptOk (pyFormat tmpl v1) = true) : exceptOk (pyFormat tmpl v2) = true :=
  pyFmtAux_isOk_mono v1 v2 hdom tmpl.toList.length tmpl.toList le_rfl none h

/-- The built-in first-blood template renders for every user and
challenge name. -/
theorem fb_default_renders (u c : String) :
    exceptOk (pyFormat FIRST_BLOOD_DEFAULT [("user", u), ("challenge", c)]) = true := by
  apply pyFormat_isOk_mono [("user", ""), ("challenge", "")]
  · intro k hk
    by_cases h1 : "user" = k
    · simp [alGet, h1]
    · by_cases h2 : "challenge" = k
      · simp [alGet, h1, h2]
      · simp [alGet, h1, h2] at hk
  · decide

/-- The built-in regular solve template renders for every user, challenge
name and count. -/
theorem solve_default_renders (u c num : String) :
    exceptOk (pyFormat SOLVE_DEFAULT
      [("user", u), ("challenge", c), ("num", num)]) = true := by
  apply pyFormat_isOk_mono [("user", ""), ("challenge", ""), ("num", "")]
  · intro k hk
    by_cases h1 : "user" = k
    · simp [alGet, h1]
    · by_cases h2 : "challenge" = k
      · simp [alGet, h1, h2]
      · by_cases h3 : "num" = k
        · simp [alGet, h1, h2, h3]
        · simp [alGet, h1, h2, h3] at hk
  · decide

/-- The built-in `DEFAULT_MESSAGE_TEMPLATE` renders for every name,
category and value. -/
theorem message_default_renders (nm c v : String) :
    exceptOk (pyFormat DEFAULT_MESSAGE_TEMPLATE
      [("name", nm), ("challenge", nm), ("category", c), ("value", v)]) = true := by
  apply pyFormat_isOk_mono
    [("name", ""), ("challenge", ""), ("category", ""), ("value", "")]
  · intro k hk
    by_cases h1 : "name" = k
    · simp [alGet, h1]
    · by_cases h2 : "challenge" = k
      · simp [alGet, h1, h2]
      · by_cases h3 : "category" = k
        · simp [alGet, h1, h2, h3]
        · by_cases h4 : "value" = k
          · simp [alGet, h1, h2, h3, h4]
          · simp [alGet, h1, h2, h3, h4] at hk
  · decide

theorem exists_ok_of_exceptOk {ε α : Type} (e : Except ε α)
    (h : exceptOk e = true) : ∃ t, e = Except.ok t := by
  cases e with
  | ok t => exact ⟨t, rfl⟩
  | error e2 => simp [exceptOk] at h

/-- The built-in update template renders on the update wrapper's keyword
arguments for every challenge. -/
theorem default_renders_updateVals (ch : PyChallenge) :
    exceptOk (pyFormat DEFAULT_MESSAGE_TEMPLATE (updateVals ch)) = true := by
  simpa [updateVals] using
    message_default_renders (ch.name.getD "Unknown")
      (ch.category.getD "Uncategorized")
      (match ch.value with | some v => toString v | none => "")

/-- A template that fails with user, challenge and num bound also fails
with only user and challenge bound (the first-blood branch formats without
`num`). -/
theorem fails2_of_fails3 (tmpl u c num : String)
    (h : exceptOk (pyFormat tmpl [("user", u), ("challenge", c), ("num", num)]) = false) :
    exceptOk (pyFormat tmpl [("user", u), ("challenge", c)]) = false := by
  by_contra hok
  rw [Bool.not_eq_false] at hok
  have := pyFormat_isOk_mono [("user", u), ("challenge", c)]
    [("user", u), ("challenge", c), ("num", num)] tmpl ?_ hok
  · rw [this] at h
    simp at h
  · intro k hk
    by_cases h1 : "user" = k
    · simp [alGet, h1]
    · by_cases h2 : "challenge" = k
      · simp [alGet, h1, h2]
      · simp [alGet, h1, h2] at hk

/-- Inside the visibility transition the update wrapper always ends up
with exactly one `send_telegram_message` call: either the configured
template renders, or the built-in default does. -/
theorem update_notify_sends (env : HookEnv) (ch : PyChallenge) :
    ∃ t, update_notify env ch =
      Except.ok [{ text := t, threadKey := some "ctfd_notifier_challenge_thread_id" }] := by
  unfold update_notify
  cases hf : pyFormat (msgTemplate env.cfg) (updateVals ch) with
  | ok t => exact ⟨t ++ adminLink env.url_root, by simp [hf]⟩
  | error e =>
    obtain ⟨t0, ht0⟩ :=
      exists_ok_of_exceptOk _ (default_renders_updateVals ch)
    exact ⟨t0 ++ adminLink env.url_root, by simp [hf, ht0]⟩

theorem exists_error_of_not_ok {ε α : Type} (e : Except ε α)
    (h : exceptOk e = false) : ∃ er, e = Except.error er := by
  cases e with
  | ok t => simp [exceptOk] at h
  | error er => exact ⟨er, rfl⟩

theorem solveLimit_erase (cfg : Config) :
    solveLimit (alErase cfg "ctfd_notifier_solve_limit") = none := by
  unfold solveLimit get_config
  rw [alGet_alErase_self]

theorem solvesEnabled_erase (cfg : Config) :
    solvesEnabled (alErase cfg "ctfd_notifier_solve_limit") = solvesEnabled cfg := by
  unfold solvesEnabled get_config
  rw [alGet_alErase_ne _ _ _ (by decide)]

theorem fbTemplate_erase (cfg : Config) :
    fbTemplate (alErase cfg "ctfd_notifier_solve_limit") = fbTemplate cfg := by
  unfold fbTemplate get_config
  rw [alGet_alErase_ne _ _ _ (by decide)]

theorem solveTemplate_erase (cfg : Config) :
    solveTemplate (alErase cfg "ctfd_notifier_solve_limit") = solveTemplate cfg := by
  unfold solveTemplate get_config
  rw [alGet_alErase_ne _ _ _ (by decide)]

/-- What `_wrap_standard_challenge_create` does when the standard class and
its `create` classmethod are present. -/
theorem wrap_create_characterization (reg : Registry) (cls : AttrMap)
    (nm : String) (doc : Option String)
    (hstd : alGet reg "standard" = some cls)
    (hcr : alGet cls "create" = some (PyObj.clsmethod (PyObj.base nm doc))) :
    wrap_standard_challenge_create reg =
      alSet reg "standard" (alSet cls "create"
        (PyObj.clsmethod (PyObj.createWrapper (PyObj.base nm doc)))) := by
  unfold wrap_standard_challenge_create
  rw [hstd]
  dsimp only
  rw [hcr]
  dsimp only [dunderFunc]

/-- The resolved Telegram configuration depends only on the config table,
the environment and `app.config`, not on the network. -/
theorem from_app_congr (e1 e2 : AppEnv) (h1 : e1.cfg = e2.cfg)
    (h2 : e1.osenv = e2.osenv) (h3 : e1.appCfg = e2.appCfg) :
    TelegramConfig.from_app e1 = TelegramConfig.from_app e2 := by
  unfold TelegramConfig.from_app enabledRaw
  rw [h1, h2, h3]

/-- A failing HTTP POST is swallowed inside `send_telegram_message`: the
function's observable behaviour is the same as when the POST succeeds. -/
theorem send_ignores_http (aenv : AppEnv) (text : String) (tkey : Option String) :
    send_telegram_message aenv text tkey =
      send_telegram_message
        { cfg := aenv.cfg, osenv := aenv.osenv, appCfg := aenv.appCfg
          httpOk := true } text tkey := by
  have hfa : TelegramConfig.from_app
      { cfg := aenv.cfg, osenv := aenv.osenv, appCfg := aenv.appCfg
        httpOk := true } = TelegramConfig.from_app aenv :=
    from_app_congr _ _ rfl rfl rfl
  unfold send_telegram_message
  rw [hfa]
  dsimp only
  unfold requestsPost
  dsimp only
  cases h : aenv.httpOk <;> simp [h]

/-!
Claim theorems.
-/

/-- C4: when `_wrap_standard_challenge_create` succeeds, the only attribute
of the standard challenge class that changes is `create`; every other
attribute is unchanged, and the new `create` is a `classmethod` around the
notifier wrapper, which exposes the original underlying function as
`__wrapped__` and preserves its `__name__` and `__doc__`. -/
theorem c4_wrap_create_frame (reg : Registry) (cls : AttrMap) (nm : String)
    (doc : Option String)
    (hstd : alGet reg "standard" = some cls)
    (hcr : alGet cls "create" = some (PyObj.clsmethod (PyObj.base nm doc))) :
    ∃ cls2, alGet (wrap_standard_challenge_create reg) "standard" = some cls2 ∧
      alGet cls2 "create" =
        some (PyObj.clsmethod (PyObj.createWrapper (PyObj.base nm doc))) ∧
      (∀ k, ¬ k = "create" → alGet cls2 k = alGet cls k) ∧
      objWrapped (PyObj.createWrapper (PyObj.base nm doc)) =
        some (PyObj.base nm doc) ∧
      (∀ d, objNameD (PyObj.createWrapper (PyObj.base nm doc)) d = nm) ∧
      objDocO (PyObj.createWrapper (PyObj.base nm doc)) = doc := by
  refine ⟨alSet cls "create"
      (PyObj.clsmethod (PyObj.createWrapper (PyObj.base nm doc))),
    ?_, ?_, ?_, rfl, fun d => rfl, rfl⟩
  · rw [wrap_create_characterization reg cls nm doc hstd hcr]
    exact alGet_alSet_self reg "standard" _
  · exact alGet_alSet_self cls "create" _
  · intro k hk
    exact alGet_alSet_ne cls "create" k _ hk

/-- C4 witness: the frame theorem evaluated on the concrete standard
class. -/
theorem c4_wrap_create_frame_witness :
    ∃ cls2, alGet (wrap_standard_challenge_create reg0) "standard" = some cls2 ∧
      alGet cls2 "create" = some (PyObj.clsmethod (PyObj.createWrapper
        (PyObj.base "create" (some "Create a challenge")))) ∧
      (∀ k, ¬ k = "create" → alGet cls2 k = alGet stdClass k) ∧
      objWrapped (PyObj.createWrapper
          (PyObj.base "create" (some "Create a challenge"))) =
        some (PyObj.base "create" (some "Create a challenge")) ∧
      (∀ d, objNameD (PyObj.createWrapper
          (PyObj.base "create" (some "Create a challenge"))) d = "create") ∧
      objDocO (PyObj.createWrapper
          (PyObj.base "create" (some "Create a challenge"))) =
        some "Create a challenge" :=
  c4_wrap_create_frame reg0 stdClass "create" (some "Create a challenge") rfl rfl

/-- C1 counterexample: on a standard class whose `create` and `solve` are
ordinary classmethods, running the plugin entrypoint `load` leaves `solve`
exactly as it was, bound to the original classmethod and not to any
notifier wrapper, while `create` is rebound; so `load` does not intercept
solve events as the claim states. -/
theorem c1_load_solve_unwrapped_cex :
    (classAttr (load reg0) "standard" "create").map isNotifierWrapped = some true ∧
    classAttr (load reg0) "standard" "solve" =
      some (PyObj.clsmethod (PyObj.base "solve" (some "Solve a challenge"))) ∧
    (classAttr (load reg0) "standard" "solve").map isNotifierWrapped = some false := by
  decide

/-- C1 (amended): `load(app)` rebinds only the standard class's `create`
method to the notifier wrapper — whose every invocation forwards one text
message to the Telegram sender — and leaves `solve` untouched; solve
interception exists only as the never-invoked `hooks.wrap_solve`. -/
theorem c1_load_wraps_create_not_solve (reg : Registry) (cls : AttrMap)
    (nm : String) (doc : Option String)
    (hstd : alGet reg "standard" = some cls)
    (hcr : alGet cls "create" = some (PyObj.clsmethod (PyObj.base nm doc))) :
    ∃ cls2, alGet (load reg) "standard" = some cls2 ∧
      alGet cls2 "create" =
        some (PyObj.clsmethod (PyObj.createWrapper (PyObj.base nm doc))) ∧
      alGet cls2 "solve" = alGet cls "solve" ∧
      ∀ env ch, (create_wrapper env ch).2 =
        [{ text := createText env ch, threadKey := none }] := by
  refine ⟨alSet cls "create"
      (PyObj.clsmethod (PyObj.createWrapper (PyObj.base nm doc))),
    ?_, ?_, ?_, fun env ch => rfl⟩
  · unfold load
    rw [wrap_create_characterization reg cls nm doc hstd hcr]
    exact alGet_alSet_self reg "standard" _
  · exact alGet_alSet_self cls "create" _
  · exact alGet_alSet_ne cls "create" "solve" _ (by decide)

/-- C1 witness: the amended theorem evaluated on the concrete registry. -/
theorem c1_load_wraps_create_not_solve_witness :
    ∃ cls2, alGet (load reg0) "standard" = some cls2 ∧
      alGet cls2 "create" = some (PyObj.clsmethod (PyObj.createWrapper
        (PyObj.base "create" (some "Create a challenge")))) ∧
      alGet cls2 "solve" = alGet stdClass "solve" ∧
      ∀ env ch, (create_wrapper env ch).2 =
        [{ text := createText env ch, threadKey := none }] :=
  c1_load_wraps_create_not_solve reg0 stdClass "create"
    (some "Create a challenge") rfl rfl

/-- C8: the solve, update and create wrappers return exactly the original
call's result for every environment, including those where the DB query,
the template rendering or the HTTP POST fails; the wrappers are total Lean
functions (every exception source is an `Except` handled inside), which
models that no exception propagates to the caller. -/
theorem c8_wrappers_transparent {α : Type} (env : HookEnv) (user : PyUser)
    (ch ch2 : PyChallenge) (oldState : Option String) (result : α) :
    (solve_wrapper env user ch result).1 = result ∧
    (update_wrapper env oldState ch result).1 = result ∧
    (create_wrapper env ch2).1 = ch2 ∧
    (∀ aenv text tkey, send_telegram_message aenv text tkey =
      send_telegram_message
        { cfg := aenv.cfg, osenv := aenv.osenv, appCfg := aenv.appCfg
          httpOk := true } text tkey) := by
  refine ⟨?_, ?_, rfl, fun aenv text tkey => send_ignores_http aenv text tkey⟩
  · unfold solve_wrapper
    cases solve_body env user ch <;> rfl
  · unfold update_wrapper
    by_cases h : (¬ oldState = some "visible") ∧ ch.state = some "visible"
    · rw [if_pos h]
      cases update_notify env ch <;> rfl
    · rw [if_neg h]

/-- C6 counterexample: an update of an already-visible challenge (state
`visible` before and after) produces no notification call at all, so not
every intercepted update forwards a message. -/
theorem c6_update_no_notify_cex :
    update_wrapper henvValid (some "visible") chVisible (0 : Nat) = (0, []) := by
  rfl

/-- C6 (amended): the update wrapper calls the Telegram sender exactly
when the update transitions the challenge's state to `visible` from a
non-visible state — then it sends exactly one message on the challenge
thread key — and sends nothing otherwise. -/
theorem c6_update_notifies_iff_visible {α : Type} (env : HookEnv)
    (oldState : Option String) (ch : PyChallenge) (r : α) :
    ((¬ oldState = some "visible") ∧ ch.state = some "visible" →
      ∃ t, update_wrapper env oldState ch r =
        (r, [{ text := t, threadKey := some "ctfd_notifier_challenge_thread_id" }])) ∧
    (¬ ((¬ oldState = some "visible") ∧ ch.state = some "visible") →
      update_wrapper env oldState ch r = (r, [])) := by
  constructor
  · intro h
    obtain ⟨t, ht⟩ := update_notify_sends env ch
    refine ⟨t, ?_⟩
    unfold update_wrapper
    rw [if_pos h, ht]
  · intro h
    unfold update_wrapper
    rw [if_neg h]

/-- C6 witness: a hidden-to-visible update on the concrete environment
produces exactly one notification call. -/
theorem c6_update_notifies_witness :
    ∃ t, update_wrapper henvValid (some "hidden") chVisible (0 : Nat) =
      (0, [{ text := t, threadKey := some "ctfd_notifier_challenge_thread_id" }]) :=
  (c6_update_notifies_iff_visible henvValid (some "hidden") chVisible 0).1
    (by exact ⟨by decide, by decide⟩)

/-- C5: `send_telegram_message` attempts at most one HTTP call; with a
valid, enabled configuration it attempts exactly one POST to the bot's
`sendMessage` URL carrying the chat id, the given text, Markdown parse
mode, disabled link preview, and a `message_thread_id` exactly when the
configured thread id parses as an integer; with an invalid or disabled
configuration it returns without any request. -/
theorem c5_send_telegram_message_spec (env : AppEnv) (text : String)
    (tk : Option String) :
    (send_telegram_message env text tk).length ≤ 1 ∧
    ((TelegramConfig.from_app env).is_valid = false →
      send_telegram_message env text tk = []) ∧
    ((TelegramConfig.from_app env).is_valid = true →
      ∃ tok chat, (TelegramConfig.from_app env).bot_token = some tok ∧
        (TelegramConfig.from_app env).chat_id = some chat ∧
        send_telegram_message env text tk =
          [{ url := "https://api.telegram.org/bot" ++ tok ++ "/sendMessage"
             payload :=
              { chat_id := chat, text := text, parse_mode := "Markdown"
                disable_web_page_preview := true
                message_thread_id := threadIdOf env.cfg tk } }]) := by
  refine ⟨?_, ?_, ?_⟩
  · unfold send_telegram_message
    by_cases hv : (TelegramConfig.from_app env).is_valid
    · rw [if_neg (by simp [hv])]
      dsimp only
      split <;> simp
    · rw [if_pos (by simpa using hv)]
      simp
  · intro h
    unfold send_telegram_message
    rw [if_pos (by simp [h])]
  · intro h
    obtain ⟨tok, hbt⟩ : ∃ tok, (TelegramConfig.from_app env).bot_token = some tok := by
      cases hbt : (TelegramConfig.from_app env).bot_token with
      | some t => exact ⟨t, rfl⟩
      | none =>
        rw [TelegramConfig.is_valid, hbt] at h
        simp at h
    obtain ⟨chat, hch⟩ : ∃ chat, (TelegramConfig.from_app env).chat_id = some chat := by
      cases hch : (TelegramConfig.from_app env).chat_id with
      | some c => exact ⟨c, rfl⟩
      | none =>
        rw [TelegramConfig.is_valid, hch] at h
        simp at h
    refine ⟨tok, chat, hbt, hch, ?_⟩
    unfold send_telegram_message
    rw [if_neg (by simp [h])]
    rw [hbt, hch]
    dsimp only
    split <;> rfl

/-- C5 witness: the valid concrete configuration yields exactly the
claimed single POST. -/
theorem c5_send_telegram_message_witness :
    (TelegramConfig.from_app envValid).is_valid = true ∧
    ∃ tok chat, (TelegramConfig.from_app envValid).bot_token = some tok ∧
      (TelegramConfig.from_app envValid).chat_id = some chat ∧
      send_telegram_message envValid "hello" (some "ctfd_notifier_solve_thread_id") =
        [{ url := "https://api.telegram.org/bot" ++ tok ++ "/sendMessage"
           payload :=
            { chat_id := chat, text := "hello", parse_mode := "Markdown"
              disable_web_page_preview := true
              message_thread_id :=
                threadIdOf envValid.cfg (some "ctfd_notifier_solve_thread_id") } }] :=
  ⟨by decide,
    (c5_send_telegram_message_spec envValid "hello"
      (some "ctfd_notifier_solve_thread_id")).2.2 (by decide)⟩

/-- C7: a POST to the admin configuration view whose form nonce is empty
or different from the session nonce stores nothing (in both the
`routes.py` and the `__init__.py` handler) and answers with a redirect;
conversely, any POST that changes the stored configuration had a
non-empty form nonce equal to the session nonce. -/
theorem c7_config_view_nonce (cfg : Config) (req : FormReq) :
    ((formGet req.form "nonce" "" = "" ∨
        ¬ formGet req.form "nonce" "" = req.sessionNonce.getD "") →
      routes_config_view_post cfg req = (cfg, Resp.redirect "admin.view_settings") ∧
      init_config_view_post cfg req = (cfg, Resp.redirect "admin.view_settings")) ∧
    (¬ (routes_config_view_post cfg req).1 = cfg →
      ¬ formGet req.form "nonce" "" = "" ∧
        formGet req.form "nonce" "" = req.sessionNonce.getD "") ∧
    (¬ (init_config_view_post cfg req).1 = cfg →
      ¬ formGet req.form "nonce" "" = "" ∧
        formGet req.form "nonce" "" = req.sessionNonce.getD "") := by
  by_cases h : formGet req.form "nonce" "" = "" ∨
      ¬ formGet req.form "nonce" "" = req.sessionNonce.getD ""
  · have h1 : routes_config_view_post cfg req =
        (cfg, Resp.redirect "admin.view_settings") := by
      unfold routes_config_view_post
      rw [if_pos h]
    have h2 : init_config_view_post cfg req =
        (cfg, Resp.redirect "admin.view_settings") := by
      unfold init_config_view_post
      rw [if_pos h]
    refine ⟨fun _ => ⟨h1, h2⟩, ?_, ?_⟩
    · intro hne
      rw [h1] at hne
      simp at hne
    · intro hne
      rw [h2] at hne
      simp at hne
  · push_neg at h
    exact ⟨fun hcon => absurd h.2 (hcon.resolve_left h.1),
      fun _ => ⟨h.1, h.2⟩, fun _ => ⟨h.1, h.2⟩⟩

/-- C7 witness: the stale-nonce request leaves the concrete configuration
untouched and redirects, in both handlers. -/
theorem c7_config_view_nonce_witness :
    routes_config_view_post cfgValid badReq =
      (cfgValid, Resp.redirect "admin.view_settings") ∧
    init_config_view_post cfgValid badReq =
      (cfgValid, Resp.redirect "admin.view_settings") :=
  (c7_config_view_nonce cfgValid badReq).1 (Or.inr (by decide))

/-- C2: when a solve notification is due (count known, solves enabled,
limit not hit) and the template in effect raises on the user name,
challenge name and solve count, the solve wrapper falls back to the
corresponding built-in default — the first-blood default for the first
solve, `\x7buser\x7d solved \x7bchallenge\x7d (\x7bnum\x7d)` otherwise —
sends the text rendered from that default (with the standard challenge
link suffix), and returns the original result without raising. -/
theorem c2_solve_fallback {α : Type} (env : HookEnv) (user : PyUser)
    (ch : PyChallenge) (r : α) (n : Nat) (e : FmtErr)
    (hcount : env.solveCountE = Except.ok n)
    (hen : solvesEnabled env.cfg = true)
    (hlim : limitHit env.cfg n = false) :
    (n = 1 →
      pyFormat (fbTemplate env.cfg)
          (solveVals3 (user.name.getD "Unknown") (ch.name.getD "Unknown") n) =
        Except.error e →
      ∃ t0, pyFormat FIRST_BLOOD_DEFAULT
          (solveVals2 (user.name.getD "Unknown") (ch.name.getD "Unknown")) =
          Except.ok t0 ∧
        solve_wrapper env user ch r =
          (r, [{ text := t0 ++
                  challengeLink env.url_root (ch.name.getD "Unknown") ch.id
                 threadKey := some "ctfd_notifier_solve_thread_id" }])) ∧
    (¬ n = 1 →
      pyFormat (solveTemplate env.cfg)
          (solveVals3 (user.name.getD "Unknown") (ch.name.getD "Unknown") n) =
        Except.error e →
      ∃ t0, pyFormat SOLVE_DEFAULT
          (solveVals3 (user.name.getD "Unknown") (ch.name.getD "Unknown") n) =
          Except.ok t0 ∧
        solve_wrapper env user ch r =
          (r, [{ text := t0 ++
                  challengeLink env.url_root (ch.name.getD "Unknown") ch.id
                 threadKey := some "ctfd_notifier_solve_thread_id" }])) := by
  constructor
  · intro h1 hfail3
    have hf3 : exceptOk (pyFormat (fbTemplate env.cfg)
        (solveVals3 (user.name.getD "Unknown") (ch.name.getD "Unknown") n)) = false := by
      rw [hfail3]
      rfl
    have hf2 : exceptOk (pyFormat (fbTemplate env.cfg)
        (solveVals2 (user.name.getD "Unknown") (ch.name.getD "Unknown"))) = false := by
      have := fails2_of_fails3 (fbTemplate env.cfg) (user.name.getD "Unknown")
        (ch.name.getD "Unknown") (toString n) (by simpa [solveVals3] using hf3)
      simpa [solveVals2] using this
    obtain ⟨e2, he2⟩ := exists_error_of_not_ok _ hf2
    obtain ⟨t0, ht0⟩ := exists_ok_of_exceptOk _
      (fb_default_renders (user.name.getD "Unknown") (ch.name.getD "Unknown"))
    have ht0v : pyFormat FIRST_BLOOD_DEFAULT
        (solveVals2 (user.name.getD "Unknown") (ch.name.getD "Unknown")) =
        Except.ok t0 := by
      simpa [solveVals2] using ht0
    refine ⟨t0, ht0v, ?_⟩
    subst h1
    simp [solve_wrapper, solve_body, hcount, hen, hlim, he2, ht0v]
  · intro h1 hfail3
    obtain ⟨t0, ht0⟩ := exists_ok_of_exceptOk _
      (solve_default_renders (user.name.getD "Unknown") (ch.name.getD "Unknown")
        (toString n))
    have ht0v : pyFormat SOLVE_DEFAULT
        (solveVals3 (user.name.getD "Unknown") (ch.name.getD "Unknown") n) =
        Except.ok t0 := by
      simpa [solveVals3] using ht0
    refine ⟨t0, ht0v, ?_⟩
    simp [solve_wrapper, solve_body, hcount, hen, hlim, h1, hfail3, ht0v]

/-- C2 witness: with the malformed solve template and solve count 2 the
wrapper sends exactly the default-rendered text. -/
theorem c2_solve_fallback_witness :
    ∃ t0, pyFormat SOLVE_DEFAULT
        (solveVals3 (aliceUser.name.getD "Unknown")
          (chVisible.name.getD "Unknown") 2) = Except.ok t0 ∧
      solve_wrapper henvBad aliceUser chVisible (0 : Nat) =
        (0, [{ text := t0 ++
                challengeLink henvBad.url_root
                  (chVisible.name.getD "Unknown") chVisible.id
               threadKey := some "ctfd_notifier_solve_thread_id" }]) :=
  (c2_solve_fallback henvBad aliceUser chVisible 0 2 (FmtErr.keyError "oops")
    rfl (by decide) (by decide)).2 (by decide) (by rfl)

/-- C3: for an update notification (transition to visible) whose
user-supplied `ctfd_notifier_message_template` raises on the challenge's
name, category and value, the update wrapper falls back to
`DEFAULT_MESSAGE_TEMPLATE`, sends the text rendered from it with the same
four substitution values (plus the standard admin link suffix), and
returns the original result without raising. -/
theorem c3_update_fallback {α : Type} (env : HookEnv) (oldState : Option String)
    (ch : PyChallenge) (r : α) (t : String) (e : FmtErr)
    (htrans : (¬ oldState = some "visible") ∧ ch.state = some "visible")
    (htmpl : get_config env.cfg "ctfd_notifier_message_template" = some t)
    (hne : ¬ t = "")
    (hfail : pyFormat t (updateVals ch) = Except.error e) :
    ∃ t0, pyFormat DEFAULT_MESSAGE_TEMPLATE (updateVals ch) = Except.ok t0 ∧
      update_wrapper env oldState ch r =
        (r, [{ text := t0 ++ adminLink env.url_root
               threadKey := some "ctfd_notifier_challenge_thread_id" }]) := by
  have hmt : msgTemplate env.cfg = t := by
    simp [msgTemplate, htmpl, pyOrS, hne]
  obtain ⟨t0, ht0⟩ := exists_ok_of_exceptOk _ (default_renders_updateVals ch)
  refine ⟨t0, ht0, ?_⟩
  unfold update_wrapper
  rw [if_pos htrans]
  simp [update_notify, hmt, hfail, ht0]

/-- C3 witness: the malformed update template falls back to the default
text on the concrete visible transition. -/
theorem c3_update_fallback_witness :
    ∃ t0, pyFormat DEFAULT_MESSAGE_TEMPLATE (updateVals chVisible) = Except.ok t0 ∧
      update_wrapper henvBad (some "hidden") chVisible (0 : Nat) =
        (0, [{ text := t0 ++ adminLink henvBad.url_root
               threadKey := some "ctfd_notifier_challenge_thread_id" }]) :=
  c3_update_fallback henvBad (some "hidden") chVisible 0 "{oops}"
    (FmtErr.keyError "oops") ⟨by decide, by decide⟩ rfl (by decide) (by rfl)

/-- C9: a parsed solve limit suppresses the notification (the wrapper
returns the original result and sends nothing) whenever the post-solve
count exceeds it, regardless of the solves-enabled flag; an unset, empty
or unparseable limit behaves exactly as if the key were absent. -/
theorem c9_solve_limit {α : Type} (env : HookEnv) (user : PyUser)
    (ch : PyChallenge) (r : α) :
    (∀ n m, env.solveCountE = Except.ok n → solveLimit env.cfg = some m →
      (n : Int) > m → solve_wrapper env user ch r = (r, [])) ∧
    (solveLimit env.cfg = none →
      solve_wrapper env user ch r =
        solve_wrapper
          { cfg := alErase env.cfg "ctfd_notifier_solve_limit"
            url_root := env.url_root
            solveCountE := env.solveCountE }
          user ch r) := by
  constructor
  · intro n m hcount hlimit hgt
    simp [solve_wrapper, solve_body, hcount, limitHit, hlimit, hgt]
  · intro hnone
    unfold solve_wrapper solve_body
    dsimp only
    simp only [limitHit, solveLimit_erase, hnone, solvesEnabled_erase,
      fbTemplate_erase, solveTemplate_erase]

/-- C9 witness: limit 1 with post-solve count 2 suppresses the
notification even though solves notifications are enabled. -/
theorem c9_solve_limit_witness :
    solve_wrapper henvLimited aliceUser chVisible (0 : Nat) = (0, []) :=
  (c9_solve_limit henvLimited aliceUser chVisible 0).1 2 1 rfl (by rfl) (by decide)

/-- C10: the solve wrapper selects the template by the post-solve count:
count 1 renders the first-blood template in effect (its built-in default
being the first-blood banner without the solve number, formatted with user
and challenge only), while a count greater than 1 renders the regular
solve template in effect (default including the count). -/
theorem c10_template_selection {α : Type} (env : HookEnv) (user : PyUser)
    (ch : PyChallenge) (r : α) (n : Nat)
    (hcount : env.solveCountE = Except.ok n)
    (hen : solvesEnabled env.cfg = true)
    (hlim : limitHit env.cfg n = false) :
    (n = 1 → ∀ t0,
      pyFormat (fbTemplate env.cfg)
          (solveVals2 (user.name.getD "Unknown") (ch.name.getD "Unknown")) =
        Except.ok t0 →
      solve_wrapper env user ch r =
        (r, [{ text := t0 ++
                challengeLink env.url_root (ch.name.getD "Unknown") ch.id
               threadKey := some "ctfd_notifier_solve_thread_id" }])) ∧
    (1 < n → ∀ t0,
      pyFormat (solveTemplate env.cfg)
          (solveVals3 (user.name.getD "Unknown") (ch.name.getD "Unknown") n) =
        Except.ok t0 →
      solve_wrapper env user ch r =
        (r, [{ text := t0 ++
                challengeLink env.url_root (ch.name.getD "Unknown") ch.id
               threadKey := some "ctfd_notifier_solve_thread_id" }])) ∧
    FIRST_BLOOD_DEFAULT = "🩸 First Blood! ⚡️\n{user} solved {challenge}" ∧
    SOLVE_DEFAULT = "{user} solved {challenge} ({num})" := by
  refine ⟨?_, ?_, rfl, rfl⟩
  · intro h1 t0 ht0
    subst h1
    simp [solve_wrapper, solve_body, hcount, hen, hlim, ht0]
  · intro h1 t0 ht0
    have hne : ¬ n = 1 := by omega
    simp [solve_wrapper, solve_body, hcount, hen, hlim, hne, ht0]

/-- C10 witness: a first solve on the default templates sends the
first-blood banner. -/
theorem c10_template_selection_witness :
    solve_wrapper henvFB aliceUser chVisible (0 : Nat) =
      (0, [{ text := "🩸 First Blood! ⚡️\nalice solved pwn1" ++
              challengeLink henvFB.url_root
                (chVisible.name.getD "Unknown") chVisible.id
             threadKey := some "ctfd_notifier_solve_thread_id" }]) :=
  (c10_template_selection henvFB aliceUser chVisible 0 1 rfl (by decide)
      (by decide)).1 rfl "🩸 First Blood! ⚡️\nalice solved pwn1" (by rfl)

end CtfdNotifier
